import Mathlib

/-!
Verification development for the image-customizer / live-root repository.

The Go sources (`toolkit/tools/pkg/imagecustomizerlib/customizeverity.go`,
the unnamed image-customizer pipeline file) and the dracut boot script
(`dmsquash-live-root.sh`) are shallowly embedded below: pure fragments become
Lean functions, external effects (shell tools, file system, mounts) are either
abstracted into an `Env` record of oracles or recorded as abstract actions in a
trace, and Go's `(T, error)` returns become `Except`.
-/

namespace ImageCustomizer

/-- Embedding of Go `strings.ToUpper` restricted to the ASCII identifiers that
the partition id types use. -/
def goToUpper (s : String) : String :=
  ⟨s.data.map Char.toUpper⟩

/-- Whitespace class used by Go `strings.TrimSpace` on the ASCII/Latin-1 range
(tab, newline, vertical tab, form feed, carriage return, space, NEL, NBSP).
Higher Unicode space runes do not occur in boot-loader configuration text. -/
def isGoSpace (c : Char) : Bool :=
  c = ' ' || c = '\t' || c = '\n' || c = Char.ofNat 11 || c = Char.ofNat 12 ||
    c = '\r' || c = Char.ofNat 0x85 || c = Char.ofNat 0xA0

/-- Embedding of Go `strings.TrimSpace`: drop leading and trailing whitespace. -/
def goTrimSpace (s : String) : String :=
  ⟨((s.data.dropWhile isGoSpace).reverse.dropWhile isGoSpace).reverse⟩

/-- Embedding of Go `strings.HasPrefix s p`: `p` is a leading substring of `s`. -/
def goStartsWith (s p : String) : Bool :=
  p.data.isPrefixOf s.data

/-- Embedding of Go `strings.TrimSuffix`. -/
def goTrimSuffix (s suffix : String) : String :=
  if suffix.data.isSuffixOf s.data then ⟨s.data.take (s.data.length - suffix.data.length)⟩ else s

/-- Helper for `goExt`: walks the reversed path, accumulating the characters
seen after (to the right of) the current position; stops with the extension at
the last dot of the final path element, or empty at a path separator. -/
def extRevAux : List Char → List Char → List Char
  | [], _ => []
  | c :: rest, acc =>
    if c = '/' then []
    else if c = '.' then '.' :: acc
    else extRevAux rest (c :: acc)

/-- Embedding of Go `filepath.Ext`: the suffix beginning at the final dot in
the final slash-separated element of the path; empty if there is no dot. -/
def goExt (p : String) : String :=
  ⟨extRevAux p.data.reverse []⟩

/-- Embedding of Go `filepath.Base` (path cleaning of repeated separators is
not modelled; no claim depends on it). -/
def goBase (p : String) : String :=
  if p = "" then "."
  else
    let chars := p.data.reverse.dropWhile (· = '/')
    if chars = [] then "/" else ⟨(chars.takeWhile (· ≠ '/')).reverse⟩

/-- Embedding of Go `filepath.Dir` (path cleaning is not modelled; no claim
depends on it). -/
def goDir (p : String) : String :=
  let after := p.data.reverse.dropWhile (· ≠ '/')
  if after = [] then "." else if after = ['/'] then "/" else ⟨(after.drop 1).reverse⟩

/-- Embedding of Go `filepath.Join` for the two-argument uses in this code base
(lexical cleaning is not modelled; no claim depends on it). -/
def goJoin (a b : String) : String :=
  if a = "" then b else a ++ "/" ++ b

/-- Does a relative path escape upward through `..` components?  Helper for
`goIsLocal`. -/
def dotDotEscapes : List String → Nat → Bool
  | [], _ => false
  | comp :: rest, depth =>
    if comp = ".." then
      if depth = 0 then true else dotDotEscapes rest (depth - 1)
    else if comp = "." || comp = "" then dotDotEscapes rest depth
    else dotDotEscapes rest (depth + 1)

/-- Embedding of Go `filepath.IsLocal` (Unix): the path is non-empty, not
absolute, and never escapes upward out of its starting directory. -/
def goIsLocal (p : String) : Bool :=
  p ≠ "" && !(goStartsWith p "/") && !(dotDotEscapes (p.splitOn "/") 0)

/-! ## Partition identifier types (`imagecustomizerapi.IdType`) -/

/-- `imagecustomizerapi.IdType` is a string-typed enumeration. -/
abbrev IdType := String

/-- `imagecustomizerapi.IdTypeUuid`. -/
def IdTypeUuid : IdType := "uuid"

/-- `imagecustomizerapi.IdTypePartuuid`. -/
def IdTypePartuuid : IdType := "partuuid"

/-- `imagecustomizerapi.IdTypePartlabel`. -/
def IdTypePartlabel : IdType := "partlabel"

/-- The three identifier types accepted by the verity helpers. -/
def ValidIdType (t : IdType) : Prop :=
  t = IdTypePartlabel ∨ t = IdTypeUuid ∨ t = IdTypePartuuid

instance (t : IdType) : Decidable (ValidIdType t) := by
  unfold ValidIdType; infer_instance

/-- Embedding of `systemdFormatPartitionId` (customizeverity.go): renders a
`(type, value)` pair as `TYPE=value`; the switch accepts exactly the three
identifier types and otherwise reports an invalid `idType`. -/
def systemdFormatPartitionId (idType : IdType) (id : String) : Except String String :=
  if ValidIdType idType then
    Except.ok (goToUpper idType ++ "=" ++ id)
  else
    Except.error ("invalid idType provided (" ++ idType ++ ")")

/-- `diskutils.PartitionInfo`: the partition record produced by enumerating a
block device. -/
structure PartitionInfo where
  path : String
  fileSystemType : String
  uuid : String
  partUuid : String
  partLabel : String
  partitionNumber : Nat
deriving DecidableEq

/-- Embedding of `idToPartitionBlockDevicePath` (customizeverity.go): iterate
over the partitions; inside the loop, switch on the id type and return the
first partition whose corresponding field matches; an unrecognized id type
returns an invalid-idType error from within the loop body; falling off the end
of the loop reports that no partition was found. -/
def idToPartitionBlockDevicePath (idType : IdType) (id : String) (nbdDevice : String) :
    List PartitionInfo → Except String String
  | [] => Except.error ("no partition found for " ++ idType ++ ": " ++ id)
  | partition :: rest =>
    if idType = IdTypePartlabel then
      if partition.partLabel = id then Except.ok partition.path
      else idToPartitionBlockDevicePath idType id nbdDevice rest
    else if idType = IdTypeUuid then
      if partition.uuid = id then Except.ok partition.path
      else idToPartitionBlockDevicePath idType id nbdDevice rest
    else if idType = IdTypePartuuid then
      if partition.partUuid = id then Except.ok partition.path
      else idToPartitionBlockDevicePath idType id nbdDevice rest
    else
      Except.error ("invalid idType provided (" ++ idType ++ ")")

/-- The field of a partition record selected by a (valid) identifier type. -/
def partitionFieldOf (idType : IdType) (p : PartitionInfo) : String :=
  if idType = IdTypePartlabel then p.partLabel
  else if idType = IdTypeUuid then p.uuid
  else p.partUuid

/-- Reference behaviour of resolve-by-identifier as the amended claim states
it: an empty enumeration always yields the not-found error; an unsupported id
type on a non-empty enumeration yields the invalid-idType error; otherwise the
first partition whose selected field matches wins, and no match is the
not-found error naming the type and value. -/
def idToPartitionSpec (idType : IdType) (id : String) (parts : List PartitionInfo) :
    Except String String :=
  match parts with
  | [] => Except.error ("no partition found for " ++ idType ++ ": " ++ id)
  | _ :: _ =>
    if ValidIdType idType then
      match parts.find? (fun p => partitionFieldOf idType p = id) with
      | some p => Except.ok p.path
      | none => Except.error ("no partition found for " ++ idType ++ ": " ++ id)
    else
      Except.error ("invalid idType provided (" ++ idType ++ ")")

/-! ## Output image format mapping -/

/-- Supported input/output format name `vhd`. -/
def ImageFormatVhd : String := "vhd"

/-- Supported input/output format name `vhdx`. -/
def ImageFormatVhdx : String := "vhdx"

/-- Supported input/output format name `qcow2`. -/
def ImageFormatQCow2 : String := "qcow2"

/-- Supported input/output format name `iso`. -/
def ImageFormatIso : String := "iso"

/-- Supported input/output format name `raw`. -/
def ImageFormatRaw : String := "raw"

/-- qemu-specific format name `vpc`. -/
def QemuFormatVpc : String := "vpc"

/-- Embedding of `toQemuImageFormat`: `vhd` maps to qemu's `vpc`; `vhdx`,
`raw` and `qcow2` map to themselves; anything else is an unsupported-format
error listing the supported names. -/
def toQemuImageFormat (imageFormat : String) : Except String String :=
  if imageFormat = ImageFormatVhd then Except.ok QemuFormatVpc
  else if imageFormat = ImageFormatVhdx ∨ imageFormat = ImageFormatRaw ∨
      imageFormat = ImageFormatQCow2 then
    Except.ok imageFormat
  else
    Except.error ("unsupported image format (supported: vhd, vhdx, raw, qcow2): " ++ imageFormat)

/-! ## Grub configuration patching (`updateGrubConfig`) -/

/-- The per-line transformation inside `updateGrubConfig`'s loop: the trimmed
line is computed once; a `linux ` line gets the new arguments appended to the
original (untrimmed) line; a `set rootdevice=PARTUUID=` line is replaced by the
mapper root device line; both tests look at the same trimmed original line. -/
def updateGrubLine (newArgs : String) (line : String) : String :=
  let trimmedLine := goTrimSpace line
  let line1 := if goStartsWith trimmedLine "linux " then line ++ " " ++ newArgs else line
  if goStartsWith trimmedLine "set rootdevice=PARTUUID=" then "set rootdevice=/dev/mapper/root"
  else line1

/-- Embedding of `updateGrubConfig` (customizeverity.go) on its line list: the
two partition ids are rendered by `systemdFormatPartitionId` (errors
propagate), the verity argument string is assembled, and every line is passed
through `updateGrubLine`.  Reading and writing the file are the caller's I/O
and are not part of the transformation. -/
def updateGrubConfig (dataPartitionIdType : IdType) (dataPartitionId : String)
    (hashPartitionIdType : IdType) (hashPartitionId : String) (rootHash : String)
    (lines : List String) : Except String (List String) := do
  let formattedDataPartition ← systemdFormatPartitionId dataPartitionIdType dataPartitionId
  let formattedHashPartition ← systemdFormatPartitionId hashPartitionIdType hashPartitionId
  let newArgs := "rd.systemd.verity=1 roothash=" ++ rootHash ++
    " systemd.verity_root_data=" ++ formattedDataPartition ++
    " systemd.verity_root_hash=" ++ formattedHashPartition ++
    " systemd.verity_root_options=panic-on-corruption"
  pure (lines.map (updateGrubLine newArgs))

/-! ## Root-hash extraction (`customizeVerityImageHelper`)

The helper runs `veritysetup format` and extracts the root hash from its
captured output with the Go regular expression `Root hash:\s+([0-9a-fA-F]+)`.
The regex is embedded directly: the literal `Root hash:` followed by one or
more whitespace characters followed by one or more hexadecimal digits, matched
leftmost with maximal runs (whitespace and hexadecimal classes are disjoint, so
leftmost-first and leftmost-longest agree here); the capture group is the digit
run. -/

/-- The whitespace class `\s` of Go's regexp package: `[\t\n\f\r ]`. -/
def isRegexSpace (c : Char) : Bool :=
  c = '\t' || c = '\n' || c = Char.ofNat 12 || c = '\r' || c = ' '

/-- The character class `[0-9a-fA-F]`. -/
def isHexChar (c : Char) : Bool :=
  ('0' ≤ c && c ≤ '9') || ('a' ≤ c && c ≤ 'f') || ('A' ≤ c && c ≤ 'F')

/-- The literal part of the root-hash regular expression. -/
def rootHashLit : List Char := "Root hash:".data

/-- Strip an expected literal from the front of a character list; `none` when
the literal is not there. -/
def stripLiteral : List Char → List Char → Option (List Char)
  | [], s => some s
  | _ :: _, [] => none
  | p :: ps, c :: cs => if p = c then stripLiteral ps cs else none

/-- Try to match `Root hash:\s+([0-9a-fA-F]+)` anchored at the head of the
list, returning the capture group: after the literal there must be a non-empty
maximal whitespace run and then a non-empty maximal hexadecimal run. -/
def matchRootHashAt (l : List Char) : Option (List Char) :=
  match stripLiteral rootHashLit l with
  | none => none
  | some afterLit =>
    let ws := afterLit.takeWhile isRegexSpace
    let afterWs := afterLit.dropWhile isRegexSpace
    if ws = [] then none
    else
      let hex := afterWs.takeWhile isHexChar
      if hex = [] then none else some hex

/-- Leftmost match of the root-hash regular expression: try every start
position from the left, as `regexp.FindStringSubmatch` does. -/
def findRootHashMatch : List Char → Option (List Char)
  | [] => none
  | c :: rest =>
    match matchRootHashAt (c :: rest) with
    | some h => some h
    | none => findRootHashMatch rest

/-- The root-hash parse-failure message of `customizeVerityImageHelper`. -/
def rootHashParseErrorMsg : String := "failed to parse root hash from veritysetup output"

/-- Embedding of the root-hash extraction step of `customizeVerityImageHelper`
(the unnamed pipeline file, lines 616–633): apply the regex to the captured
`veritysetup format` output; when `FindStringSubmatch` produces no match (or no
group), fail with the parse error; otherwise the hash is group 1. -/
def extractRootHash (verityOutput : String) : Except String String :=
  match findRootHashMatch verityOutput.data with
  | some h => Except.ok ⟨h⟩
  | none => Except.error rootHashParseErrorMsg

/-- A decomposition witnessing that the regular expression
`Root hash:\s+([0-9a-fA-F]+)` matches somewhere in `s` with capture group
`hex`: some occurrence of the literal is followed by a non-empty all-whitespace
run and then the non-empty all-hexadecimal group. -/
def RootHashMatchIn (s hex : List Char) : Prop :=
  ∃ pre ws rest, s = pre ++ rootHashLit ++ ws ++ hex ++ rest ∧
    ws ≠ [] ∧ (∀ c ∈ ws, isRegexSpace c = true) ∧
    hex ≠ [] ∧ (∀ c ∈ hex, isHexChar c = true)

/-- `s` contains a match of the root-hash regular expression. -/
def HasRootHashMatch (s : List Char) : Prop :=
  ∃ hex, RootHashMatchIn s hex

/-! ## Boot-time media check (`dmsquash-live-root.sh`, lines 42–61) -/

/-- The externally observable inputs of the media-check fragment. -/
structure MediaCheckInput where
  /-- `[ -b "$livedev" ]`: the live device is a block device. -/
  livedevIsBlock : Bool
  /-- `blkid -s TYPE -o value "$livedev"` output (consulted only for block
  devices). -/
  blkidType : String
  /-- `getarg rd.live.check -d check` succeeds: the flag (or its legacy
  spelling `check`) is present on the kernel command line. -/
  checkArgPresent : Bool
  /-- `$DRACUT_SYSTEMD` is non-empty: the service manager runs the boot. -/
  dracutSystemd : Bool
  /-- `type plymouth` succeeds: a boot splash tool is available. -/
  plymouthAvailable : Bool
  /-- Exit status of `systemctl start checkisomd5@….service` or of
  `checkisomd5 --verbose "$livedev"`. -/
  checkExitStatus : Nat

/-- Observable steps of the media-check fragment. -/
inductive BootAction where
  | hideSplash
  | startCheckService
  | runCheckisomd5
  | die (msg : String)
  | showSplash
deriving DecidableEq

/-- The `fs` variable: set from `blkid` only when the live device is a block
device, otherwise left empty. -/
def mediaCheckFs (inp : MediaCheckInput) : String :=
  if inp.livedevIsBlock then inp.blkidType else ""

/-- The `check` variable after lines 43–47: `"yes"` when `fs` is `iso9660` or
`udf`; then `getarg rd.live.check -d check || check=""` clears it again unless
the flag is present on the command line. -/
def mediaCheckVar (inp : MediaCheckInput) : String :=
  let check := if mediaCheckFs inp = "iso9660" ∨ mediaCheckFs inp = "udf" then "yes" else ""
  if inp.checkArgPresent then check else ""

/-- Embedding of the media-check fragment (lines 48–61): when `check` is
non-empty, hide the splash (if plymouth exists), run the checker through a
dedicated service unit under systemd or directly otherwise, `die "CD check
failed!"` exactly when the exit status equals 1, and otherwise restore the
splash.  Returns the action trace and whether the boot was aborted. -/
def mediaCheck (inp : MediaCheckInput) : List BootAction × Bool :=
  if mediaCheckVar inp ≠ "" then
    let hide := if inp.plymouthAvailable then [BootAction.hideSplash] else []
    let run := if inp.dracutSystemd then [BootAction.startCheckService]
      else [BootAction.runCheckisomd5]
    if inp.checkExitStatus = 1 then
      (hide ++ run ++ [BootAction.die "CD check failed!"], true)
    else
      (hide ++ run ++ (if inp.plymouthAvailable then [BootAction.showSplash] else []), false)
  else ([], false)

/-! ## Temporary overlay sizing (`do_live_overlay`, lines 271–283) -/

/-- Apparent size of the file produced by
`dd if=/dev/null of=FILE bs=BS count=1 seek=SEEK`: the file is extended to the
seek offset `SEEK × BS` plus the bytes actually copied (zero from
`/dev/null`). -/
def ddSparseApparentSize (bs seek bytesCopied : Nat) : Nat :=
  seek * bs + bytesCopied

/-- Default of `rd.live.overlay.size` (line 37): 32768 MiB. -/
def overlaySizeDefault : Nat := 32768

/-- The `overlay_size` variable: the command-line value when given, otherwise
the default. -/
def effectiveOverlaySize (arg : Option Nat) : Nat :=
  match arg with
  | some n => n
  | none => overlaySizeDefault

/-- Apparent size of the sparse `/overlay` backing file created at line 273:
`dd if=/dev/null of=/overlay bs=1024 count=1 seek=$((overlay_size * 1024))`. -/
def overlayBackingFileSize (overlaySize : Nat) : Nat :=
  ddSparseApparentSize 1024 (overlaySize * 1024) 0

/-! ## Configuration model (`imagecustomizerapi`)

The configuration schema lives outside the provided sources; its shape is
modelled from the spec (§3, §6): optional `Storage`, optional `OS` (a Go
pointer, so an absent section is a nil pointer), optional `Iso`. -/

/-- A post-install or finalize script entry (`imagecustomizerapi.Script`). -/
structure Script where
  path : String
  args : List String

/-- `OS.Packages`: inline package name lists, referenced list files, and the
update-existing-packages flag. -/
structure PackagesConf where
  updateExistingPackages : Bool
  install : List String
  remove : List String
  update : List String
  installLists : List String
  removeLists : List String
  updateLists : List String

/-- One verity partition reference: `{IdType, Id}`. -/
structure VerityPartition where
  idType : IdType
  id : String

/-- `OS.Verity`. -/
structure VerityConf where
  dataPartition : VerityPartition
  hashPartition : VerityPartition
  bootPartition : VerityPartition
  verityErrorBehavior : String

/-- The `OS` section.  `additionalFiles` keeps only the source paths (the map
keys), which are all the validator looks at. -/
structure OSConf where
  packages : PackagesConf
  additionalFiles : List String
  postInstallScripts : List Script
  finalizeImageScripts : List Script
  verity : Option VerityConf

/-- The `Iso` section. -/
structure IsoConf where
  additionalFiles : List String

/-- The root configuration document.  `Storage` and `OS` are nil-able pointers
in the source; their contents beyond presence are irrelevant to the claims
(`Storage` only signals partition customization). -/
structure Config where
  storage : Option Unit
  os : Option OSConf
  iso : Option IsoConf

/-- A failure of the build-time pipeline: either an error value returned up the
call chain, or a Go runtime panic (which no caller catches). -/
inductive Failure where
  | err (msg : String)
  | panic (msg : String)
deriving DecidableEq

/-- The Go runtime message for dereferencing a nil pointer. -/
def nilPointerPanicMsg : String :=
  "runtime error: invalid memory address or nil pointer dereference"

/-- Oracles for everything the validator reads from outside the process: the
host file system and the schema's own structural self-check. -/
structure Env where
  /-- Modelled from the spec: `Config.IsValid` (the schema's structural
  self-check, §4.2) is not among the provided sources; it is treated as an
  oracle returning `none` on success or an error message. -/
  isValidSchema : Config → Option String
  /-- `file.IsFile`: whether a path exists and is a regular file, or a stat
  error. -/
  isFile : String → Except String Bool
  /-- `os.Stat(...).Mode()`: the permission bits of a path, or a stat error. -/
  statMode : String → Except String Nat
  /-- Modelled from the spec: contents of a referenced package list file
  (§4.2 resolves package lists "by merging inline name lists with the contents
  of any referenced list files"); `none` when the file cannot be read. -/
  packageListFile : String → Option (List String)

/-- Modelled from the spec: `collectPackagesList` (not among the provided
sources) merges the contents of the referenced list files with the inline
package list into one flattened list (§4.2); an unreadable list file is an
error. -/
def collectPackagesList (env : Env) (baseConfigPath : String) (lists : List String)
    (packages : List String) : Except Failure (List String) := do
  let fileContents ← lists.mapM (fun listPath =>
    match env.packageListFile (goJoin baseConfigPath listPath) with
    | some ps => Except.ok ps
    | none => Except.error (Failure.err ("failed to read package list file (" ++ listPath ++ ")")))
  pure (fileContents.flatten ++ packages)

/-- Embedding of `validatePackageLists` (the unnamed pipeline file, lines
469–509).  The parameter is the nil-able `OS` pointer: the very first statement
reads `config.Packages.RemoveLists`, so a nil pointer panics.  Otherwise the
three package lists are merged, and when no RPM source is available the two
triggering conditions are reported in order. -/
def validatePackageLists (env : Env) (baseConfigPath : String) (config : Option OSConf)
    (rpmsSources : List String) (useBaseImageRpmRepos : Bool) (partitionsCustomized : Bool) :
    Except Failure Unit :=
  match config with
  | none => Except.error (Failure.panic nilPointerPanicMsg)
  | some os => do
    let _allPackagesRemove ← collectPackagesList env baseConfigPath os.packages.removeLists
      os.packages.remove
    let allPackagesInstall ← collectPackagesList env baseConfigPath os.packages.installLists
      os.packages.install
    let allPackagesUpdate ← collectPackagesList env baseConfigPath os.packages.updateLists
      os.packages.update
    let hasRpmSources := rpmsSources.length > 0 || useBaseImageRpmRepos
    if !hasRpmSources then
      let needRpmsSources := allPackagesInstall.length > 0 || allPackagesUpdate.length > 0 ||
        os.packages.updateExistingPackages
      if needRpmsSources then
        Except.error (Failure.err "have packages to install or update but no RPM sources were specified")
      else if partitionsCustomized then
        Except.error (Failure.err "partitions were customized so the initramfs package needs to be reinstalled but no RPM sources were specified")
      else Except.ok ()
    else Except.ok ()

/-- Embedding of `validateAdditionalFiles`: every source must exist and be a
regular file; violations are aggregated (a stat error contributes its message
and, since the file then also fails the is-file test, the not-a-file message
too, matching the two independent `errors.Join` calls). -/
def validateAdditionalFiles (env : Env) (baseConfigPath : String)
    (additionalFiles : List String) : Except Failure Unit :=
  let msgs := additionalFiles.flatMap (fun sourceFile =>
    match env.isFile (goJoin baseConfigPath sourceFile) with
    | Except.error e =>
      ["invalid additionalFiles source file (" ++ sourceFile ++ "):\n" ++ e,
       "invalid additionalFiles source file (" ++ sourceFile ++ "): not a file"]
    | Except.ok true => []
    | Except.ok false =>
      ["invalid additionalFiles source file (" ++ sourceFile ++ "): not a file"])
  if msgs = [] then Except.ok () else Except.error (Failure.err (String.intercalate "\n" msgs))

/-- Embedding of `validateScript`: the script must sit under the configuration
directory (`filepath.IsLocal`), must be stat-able, and must carry at least one
executable bit. -/
def validateScript (env : Env) (baseConfigPath : String) (script : Script) :
    Except Failure Unit :=
  if !goIsLocal script.path then
    Except.error (Failure.err ("install script (" ++ script.path ++
      ") is not under config directory (" ++ baseConfigPath ++ ")"))
  else
    match env.statMode (goJoin baseConfigPath script.path) with
    | Except.error e =>
      Except.error (Failure.err ("couldn't read install script (" ++ script.path ++ "):\n" ++ e))
    | Except.ok mode =>
      if mode &&& 0o111 = 0 then
        Except.error (Failure.err ("install script (" ++ script.path ++
          ") does not have executable bit set"))
      else Except.ok ()

/-- The indexed script-validation loops of `validateSystemConfig`, wrapping a
failure with the list name and index. -/
def validateScriptList (env : Env) (baseConfigPath : String) (listName : String) :
    Nat → List Script → Except Failure Unit
  | _, [] => Except.ok ()
  | i, script :: rest =>
    match validateScript env baseConfigPath script with
    | Except.error (Failure.err m) =>
      Except.error (Failure.err ("invalid " ++ listName ++ " item at index " ++ toString i ++
        ": " ++ m))
    | Except.error f => Except.error f
    | Except.ok _ => validateScriptList env baseConfigPath listName (i + 1) rest

/-- Embedding of `validateSystemConfig` (the unnamed pipeline file, lines
414–444): package lists first (this is where a nil `OS` pointer panics), then
additional files, then both script lists. -/
def validateSystemConfig (env : Env) (baseConfigPath : String) (config : Option OSConf)
    (rpmsSources : List String) (useBaseImageRpmRepos : Bool) (partitionsCustomized : Bool) :
    Except Failure Unit := do
  validatePackageLists env baseConfigPath config rpmsSources useBaseImageRpmRepos
    partitionsCustomized
  match config with
  | none => Except.error (Failure.panic nilPointerPanicMsg)
  | some os => do
    validateAdditionalFiles env baseConfigPath os.additionalFiles
    validateScriptList env baseConfigPath "PostInstallScripts" 0 os.postInstallScripts
    validateScriptList env baseConfigPath "FinalizeImageScripts" 0 os.finalizeImageScripts

/-- Embedding of `validateIsoConfig`: nothing to check when the section is
absent, otherwise its additional files are validated. -/
def validateIsoConfig (env : Env) (baseConfigPath : String) (config : Option IsoConf) :
    Except Failure Unit :=
  match config with
  | none => Except.ok ()
  | some iso => validateAdditionalFiles env baseConfigPath iso.additionalFiles

/-- Embedding of `hasPartitionCustomizations`: the `Storage` section is
present. -/
def hasPartitionCustomizations (config : Config) : Bool :=
  config.storage.isSome

/-- Embedding of `validateConfig` (the unnamed pipeline file, lines 355–379):
the schema self-check, then the ISO section, then the system (OS) section. -/
def validateConfig (env : Env) (baseConfigPath : String) (config : Config)
    (rpmsSources : List String) (useBaseImageRpmRepos : Bool) : Except Failure Unit := do
  match env.isValidSchema config with
  | some m => Except.error (Failure.err m)
  | none => do
    let partitionsCustomized := hasPartitionCustomizations config
    validateIsoConfig env baseConfigPath config.iso
    validateSystemConfig env baseConfigPath config.os rpmsSources useBaseImageRpmRepos
      partitionsCustomized

/-! ## Pipeline orchestration (`CustomizeImage` and its stages)

External tools (qemu-img, the ISO builder, partition/OS customization, the
verity helper, filesystem check/shrink/extract) are recorded as abstract
actions in a trace and modelled as succeeding; the claims settled against this
model are about which stages run and which results are returned, not about the
tools' own behaviour. -/

/-- The working raw image filename (`BaseImageName`). -/
def BaseImageName : String := "image.raw"

/-- Observable stages/tool invocations of the build pipeline. -/
inductive Action where
  /-- `copyIsoImageContentsToFolder`: expand the input ISO. -/
  | expandIso
  /-- `isoBuilderFromFolder`: load the expanded ISO's artifacts. -/
  | loadIsoArtifacts
  /-- `isoBuilder.createWriteableImageFromSquashfs`: build a writable raw disk
  image from the ISO's embedded compressed filesystem. -/
  | createWriteableImageFromSquashfs
  /-- `qemu-img convert -O raw` on the input image. -/
  | qemuConvertToRaw
  /-- `customizePartitions`. -/
  | customizePartitionsStage
  /-- `customizeImageHelper` (chroot OS customization). -/
  | customizeImageHelperStage
  /-- `shrinkFilesystemsHelper`. -/
  | shrinkFilesystemsStage
  /-- `customizeVerityImageHelper`. -/
  | verityStage
  /-- `checkFileSystems`. -/
  | checkFileSystemsStage
  /-- `extractPartitionsHelper`. -/
  | extractPartitionsStage
  /-- `qemu-img convert -O <fmt>` producing the final output image. -/
  | qemuConvertOutput (fmt : String)
  /-- `createLiveOSIsoImage`: build a fresh live ISO from the customized raw
  image. -/
  | createLiveOSIsoImage
  /-- Modelled from the spec: `isoBuilder.recreateLiveOSIsoImage` (not among
  the provided sources) repackages the already-expanded original ISO's
  artifacts, applying only ISO-level additional files (§4.5), with no round
  trip through a raw image. -/
  | recreateLiveOSIsoImage
deriving DecidableEq

/-- The `CommonParameters` run-state record. -/
structure CommonParameters where
  buildDir : String
  buildDirAbs : String
  inputImageFile : String
  configPath : String
  config : Config
  customizeOSPartitions : Bool
  useBaseImageRpmRepos : Bool
  rpmsSources : List String
  enableShrinkFilesystems : Bool
  outputSplitPartitionsFormat : String
  rawImageFile : String
  outputImageFormat : String
  qemuOutputImageFormat : String
  outputImageFile : String
  outputImageDir : String
  outputImageBase : String

/-- Embedding of `initCommonParameters` (the unnamed pipeline file, lines
100–159): populate the run state; `customizeOSPartitions` is true iff the
`Storage` or `OS` section is present; the qemu format name is computed (and
validated) only when the output format is neither empty nor `iso`.
Directory creation and absolute-path resolution are host I/O, modelled as
succeeding with the path unchanged. -/
def initCommonParameters (buildDir inputImageFile configPath : String) (config : Config)
    (useBaseImageRpmRepos : Bool) (rpmsSources : List String)
    (enableShrinkFilesystems : Bool) (outputSplitPartitionsFormat : String)
    (outputImageFormat outputImageFile : String) : Except Failure CommonParameters :=
  let cp : CommonParameters := {
    buildDir := buildDir
    buildDirAbs := buildDir
    inputImageFile := inputImageFile
    configPath := configPath
    config := config
    customizeOSPartitions := config.storage.isSome || config.os.isSome
    useBaseImageRpmRepos := useBaseImageRpmRepos
    rpmsSources := rpmsSources
    enableShrinkFilesystems := enableShrinkFilesystems
    outputSplitPartitionsFormat := outputSplitPartitionsFormat
    rawImageFile := goJoin buildDir BaseImageName
    outputImageFormat := outputImageFormat
    qemuOutputImageFormat := ""
    outputImageFile := outputImageFile
    outputImageDir := goDir outputImageFile
    outputImageBase := goTrimSuffix (goBase outputImageFile) (goExt outputImageFile) }
  if outputImageFormat ≠ "" ∧ outputImageFormat ≠ ImageFormatIso then
    match toQemuImageFormat outputImageFormat with
    | Except.ok q => Except.ok { cp with qemuOutputImageFormat := q }
    | Except.error e => Except.error (Failure.err e)
  else Except.ok cp

/-- Embedding of `convertInputImageToWriteableFormat` (lines 209–251): an
`.iso` input is expanded and its artifacts loaded, and only when OS/partition
customization was requested is a writable raw image built from the embedded
squashfs; any other input is converted to raw with qemu-img. -/
def convertInputImageToWriteableFormat (cp : CommonParameters) : List Action :=
  if goExt cp.inputImageFile = ".iso" then
    [Action.expandIso, Action.loadIsoArtifacts] ++
      (if cp.customizeOSPartitions then [Action.createWriteableImageFromSquashfs] else [])
  else
    [Action.qemuConvertToRaw]

/-- Embedding of `customizeOSContents` (lines 253–307): skipped entirely
without OS/partition customization; otherwise partitions and OS contents are
customized, filesystems optionally shrunk, then `cp.config.OS.Verity` is read —
a nil `OS` pointer panics here — followed by the verity stage (if configured),
the filesystem check, and optional partition extraction. -/
def customizeOSContents (cp : CommonParameters) : List Action × Option Failure :=
  if !cp.customizeOSPartitions then ([], none)
  else
    let t := [Action.customizePartitionsStage, Action.customizeImageHelperStage] ++
      (if cp.enableShrinkFilesystems then [Action.shrinkFilesystemsStage] else [])
    match cp.config.os with
    | none => (t, some (Failure.panic nilPointerPanicMsg))
    | some os =>
      (t ++ (if os.verity.isSome then [Action.verityStage] else []) ++
        [Action.checkFileSystemsStage] ++
        (if cp.outputSplitPartitionsFormat ≠ "" then [Action.extractPartitionsStage] else []),
       none)

/-- Embedding of `convertWriteableFormatToOutputImage` (lines 309–340): the
switch converts to vhd/vhdx/qcow2/raw via qemu-img, builds or recreates a live
ISO for `iso` (recreating from the original expanded artifacts when no
OS/partition customization happened), and has no default case — any other
output format (including the empty string) does nothing and returns nil. -/
def convertWriteableFormatToOutputImage (cp : CommonParameters) : List Action :=
  if cp.outputImageFormat = ImageFormatVhd ∨ cp.outputImageFormat = ImageFormatVhdx ∨
      cp.outputImageFormat = ImageFormatQCow2 ∨ cp.outputImageFormat = ImageFormatRaw then
    [Action.qemuConvertOutput cp.qemuOutputImageFormat]
  else if cp.outputImageFormat = ImageFormatIso then
    if cp.customizeOSPartitions then [Action.createLiveOSIsoImage]
    else [Action.recreateLiveOSIsoImage]
  else []

/-- Wrap an error message the way `CustomizeImage` does at one call site; a
panic is not an error value and propagates unchanged. -/
def wrapFailure (context : String) : Failure → Failure
  | Failure.err m => Failure.err (context ++ m)
  | Failure.panic m => Failure.panic m

/-- Embedding of `CustomizeImage` (the unnamed pipeline file, lines 161–207):
validate the configuration, initialize the run state, convert the input to a
writable raw image, customize it, and convert to the requested output format.
Returns the trace of executed stages and the failure, if any (the temporary
raw image clean-up in the defer is modelled as succeeding). -/
def customizeImage (env : Env) (buildDir baseConfigPath : String) (config : Config)
    (imageFile : String) (rpmsSources : List String) (outputImageFile : String)
    (outputImageFormat outputSplitPartitionsFormat : String)
    (useBaseImageRpmRepos enableShrinkFilesystems : Bool) : List Action × Option Failure :=
  match validateConfig env baseConfigPath config rpmsSources useBaseImageRpmRepos with
  | Except.error f => ([], some (wrapFailure "invalid image config:\n" f))
  | Except.ok _ =>
    match initCommonParameters buildDir imageFile baseConfigPath config useBaseImageRpmRepos
      rpmsSources enableShrinkFilesystems outputSplitPartitionsFormat outputImageFormat
      outputImageFile with
    | Except.error f => ([], some (wrapFailure "failed to initialize image customizer state:\n" f))
    | Except.ok cp =>
      let t1 := convertInputImageToWriteableFormat cp
      match customizeOSContents cp with
      | (t2, some f) => (t1 ++ t2, some (wrapFailure "failed to customize raw image:\n" f))
      | (t2, none) =>
        let t3 := convertWriteableFormatToOutputImage cp
        (t1 ++ t2 ++ t3, none)

/-! ## Concrete witness inputs -/

/-- The trivial environment used by the witnesses: the schema self-check
passes, every path is a regular executable file, referenced package list files
are empty. -/
def envTrivial : Env where
  isValidSchema := fun _ => none
  isFile := fun _ => Except.ok true
  statMode := fun _ => Except.ok 0o755
  packageListFile := fun _ => some []

/-- An `OS` section with no package changes, files, scripts or verity. -/
def osEmpty : OSConf where
  packages :=
    { updateExistingPackages := false, install := [], remove := [], update := []
      installLists := [], removeLists := [], updateLists := [] }
  additionalFiles := []
  postInstallScripts := []
  finalizeImageScripts := []
  verity := none

/-- `osEmpty` with one package to install. -/
def osInstallOne : OSConf :=
  { osEmpty with packages := { osEmpty.packages with install := ["pkg"] } }

/-- A configuration with only an (empty) `OS` section. -/
def configOSOnly : Config := { storage := none, os := some osEmpty, iso := none }

/-- A configuration with a `Storage` section but no `OS` section. -/
def configStorageOnly : Config := { storage := some (), os := none, iso := none }

/-- A configuration with neither `Storage` nor `OS` nor `Iso`. -/
def configEmpty : Config := { storage := none, os := none, iso := none }

/-! ## Theorems -/

/-- C5: `toQemuImageFormat` maps `vhd` to `vpc`; maps `vhdx`, `raw` and
`qcow2` to themselves; and rejects every other string with an
unsupported-format error listing the four supported names. -/
theorem toQemuImageFormat_spec (s : String) :
    toQemuImageFormat s =
      if s = "vhd" then Except.ok "vpc"
      else if s = "vhdx" ∨ s = "raw" ∨ s = "qcow2" then Except.ok s
      else Except.error ("unsupported image format (supported: vhd, vhdx, raw, qcow2): " ++ s) :=
  rfl

/-- C9: the sparse `/overlay` backing file has apparent size exactly
`overlaySize × 1024 × 1024` bytes, and for the default size 32768 MiB this is
exactly 34359738368 bytes. -/
theorem overlayBackingFileSize_spec :
    (∀ overlaySize, overlayBackingFileSize overlaySize = overlaySize * 1024 * 1024) ∧
    overlayBackingFileSize (effectiveOverlaySize none) = 34359738368 := by
  constructor
  · intro n
    simp [overlayBackingFileSize, ddSparseApparentSize]
  · decide

/-- C6 (counterexample): on an empty partition list with the unsupported
identifier type `bogus`, `idToPartitionBlockDevicePath` returns the not-found
error, not the distinct invalid-idType error the claim promises for every
unsupported identifier type. -/
theorem idToPartition_claim_counterexample :
    idToPartitionBlockDevicePath "bogus" "x" "/dev/nbd0" [] =
      Except.error "no partition found for bogus: x" ∧
    ¬ ValidIdType "bogus" ∧
    "no partition found for bogus: x" ≠ "invalid idType provided (bogus)" := by
  refine ⟨rfl, by decide, by decide⟩

/-- On a non-empty list, skipping a non-matching head partition leaves the
reference resolve-by-identifier result unchanged. -/
theorem idToPartitionSpec_cons_nomatch (idType : IdType) (id : String) (p : PartitionInfo)
    (rest : List PartitionInfo) (hv : ValidIdType idType)
    (hne : ¬ partitionFieldOf idType p = id) :
    idToPartitionSpec idType id (p :: rest) = idToPartitionSpec idType id rest := by
  cases rest with
  | nil => simp [idToPartitionSpec, hv, List.find?, hne]
  | cons q qs => simp [idToPartitionSpec, hv, List.find?, hne]

/-- C6 (amended): `idToPartitionBlockDevicePath` returns the path of the first
partition whose field of the given identifier type equals the given value; a
list with no matching partition gives an error naming the identifier type and
value; an unsupported identifier type gives the distinct invalid-idType error
when the partition list is non-empty, and the not-found error when it is empty
(the id-type switch lives inside the partition loop). -/
theorem idToPartitionBlockDevicePath_amended (idType : IdType) (id nbdDevice : String)
    (parts : List PartitionInfo) :
    idToPartitionBlockDevicePath idType id nbdDevice parts = idToPartitionSpec idType id parts := by
  induction parts with
  | nil => rfl
  | cons p rest ih =>
    by_cases hv : ValidIdType idType
    · have hvKeep := hv
      rcases hv with h | h | h <;> subst h
      · by_cases hm : p.partLabel = id
        · simp [idToPartitionBlockDevicePath, idToPartitionSpec, hvKeep, List.find?,
            partitionFieldOf, hm]
        · rw [show idToPartitionBlockDevicePath IdTypePartlabel id nbdDevice (p :: rest) =
              idToPartitionBlockDevicePath IdTypePartlabel id nbdDevice rest by
              simp [idToPartitionBlockDevicePath, hm], ih,
            idToPartitionSpec_cons_nomatch _ _ _ _ hvKeep (by simpa [partitionFieldOf] using hm)]
      · by_cases hm : p.uuid = id
        · simp [idToPartitionBlockDevicePath, idToPartitionSpec, hvKeep, List.find?,
            partitionFieldOf, ValidIdType, IdTypeUuid, IdTypePartlabel, IdTypePartuuid, hm]
        · rw [show idToPartitionBlockDevicePath IdTypeUuid id nbdDevice (p :: rest) =
              idToPartitionBlockDevicePath IdTypeUuid id nbdDevice rest by
              simp [idToPartitionBlockDevicePath, IdTypeUuid, IdTypePartlabel, hm], ih,
            idToPartitionSpec_cons_nomatch _ _ _ _ hvKeep
              (by simpa [partitionFieldOf, IdTypeUuid, IdTypePartlabel] using hm)]
      · by_cases hm : p.partUuid = id
        · simp [idToPartitionBlockDevicePath, idToPartitionSpec, hvKeep, List.find?,
            partitionFieldOf, ValidIdType, IdTypeUuid, IdTypePartlabel, IdTypePartuuid, hm]
        · rw [show idToPartitionBlockDevicePath IdTypePartuuid id nbdDevice (p :: rest) =
              idToPartitionBlockDevicePath IdTypePartuuid id nbdDevice rest by
              simp [idToPartitionBlockDevicePath, IdTypeUuid, IdTypePartlabel, IdTypePartuuid, hm],
            ih, idToPartitionSpec_cons_nomatch _ _ _ _ hvKeep
              (by simpa [partitionFieldOf, IdTypeUuid, IdTypePartlabel, IdTypePartuuid] using hm)]
    · have h1 : ¬ idType = IdTypePartlabel := fun h => hv (Or.inl h)
      have h2 : ¬ idType = IdTypeUuid := fun h => hv (Or.inr (Or.inl h))
      have h3 : ¬ idType = IdTypePartuuid := fun h => hv (Or.inr (Or.inr h))
      simp [idToPartitionBlockDevicePath, idToPartitionSpec, hv, h1, h2, h3]

/-- C8 (counterexample): the live device is a block device of filesystem type
`iso9660` — so the claim's applicability condition holds — but the check flag
is absent from the kernel command line; the code runs no check at all (empty
action trace, boot continues) even with a failing verification status 1. -/
theorem mediaCheck_claim_counterexample :
    (mediaCheckFs ⟨true, "iso9660", false, true, true, 1⟩ = "iso9660" ∨
      (⟨true, "iso9660", false, true, true, 1⟩ : MediaCheckInput).checkArgPresent = true) ∧
    mediaCheck ⟨true, "iso9660", false, true, true, 1⟩ = ([], false) :=
  ⟨Or.inl rfl, rfl⟩

/-- C8 (amended): the checksum self-test runs exactly when the live device
reports filesystem type `iso9660` or `udf` AND the check flag is present on
the kernel command line; when it runs, the splash is hidden (if available),
the checker runs through a dedicated service unit under the service manager
and directly otherwise, and a verification exit status of exactly 1 aborts the
boot fatally with "CD check failed!" (any other status restores the splash and
continues). -/
theorem mediaCheck_amended (inp : MediaCheckInput) :
    mediaCheck inp =
      if (mediaCheckFs inp = "iso9660" ∨ mediaCheckFs inp = "udf") ∧
          inp.checkArgPresent = true then
        if inp.checkExitStatus = 1 then
          ((if inp.plymouthAvailable then [BootAction.hideSplash] else []) ++
            (if inp.dracutSystemd then [BootAction.startCheckService]
             else [BootAction.runCheckisomd5]) ++ [BootAction.die "CD check failed!"], true)
        else
          ((if inp.plymouthAvailable then [BootAction.hideSplash] else []) ++
            (if inp.dracutSystemd then [BootAction.startCheckService]
             else [BootAction.runCheckisomd5]) ++
            (if inp.plymouthAvailable then [BootAction.showSplash] else []), false)
      else ([], false) := by
  by_cases hflag : inp.checkArgPresent = true
  · by_cases hiso : mediaCheckFs inp = "iso9660"
    · simp [mediaCheck, mediaCheckVar, hflag, hiso]
    · by_cases hudf : mediaCheckFs inp = "udf"
      · simp [mediaCheck, mediaCheckVar, hflag, hiso, hudf]
      · simp [mediaCheck, mediaCheckVar, hflag, hiso, hudf]
  · simp [mediaCheck, mediaCheckVar, hflag]

/-- A trimmed line cannot start with both `linux ` and
`set rootdevice=PARTUUID=`: the two prefixes disagree on their first
character. -/
theorem linux_set_disjoint (t : String) :
    goStartsWith t "linux " = true → goStartsWith t "set rootdevice=PARTUUID=" = true → False := by
  intro h1 h2
  unfold goStartsWith at h1 h2
  obtain ⟨data⟩ := t
  cases data with
  | nil =>
    rw [show "linux ".data = ['l', 'i', 'n', 'u', 'x', ' '] from rfl] at h1
    simp [List.isPrefixOf] at h1
  | cons c cs =>
    rw [show "linux ".data = 'l' :: "inux ".data from rfl] at h1
    rw [show "set rootdevice=PARTUUID=".data = 's' :: "et rootdevice=PARTUUID=".data from rfl] at h2
    simp only [List.isPrefixOf, Bool.and_eq_true, beq_iff_eq] at h1 h2
    rw [← h1.1] at h2
    exact absurd h2.1 (by decide)

/-- C1: with valid data/hash identifier types, `updateGrubConfig` maps every
line whose leading-whitespace-trimmed text starts with `linux ` to the line
with the exact verity-argument string appended (the partition identifiers
rendered as their boot-argument form `TYPE=value`), replaces every line whose
trimmed text starts with `set rootdevice=PARTUUID=` by exactly
`set rootdevice=/dev/mapper/root`, and passes all other lines through
unchanged, preserving the original order. -/
theorem updateGrubConfig_spec (dataIdType hashIdType : IdType) (dataId hashId rootHash : String)
    (lines : List String) (hd : ValidIdType dataIdType) (hh : ValidIdType hashIdType) :
    updateGrubConfig dataIdType dataId hashIdType hashId rootHash lines =
      Except.ok (lines.map (fun line =>
        if goStartsWith (goTrimSpace line) "linux " then
          line ++ " " ++ ("rd.systemd.verity=1 roothash=" ++ rootHash ++
            " systemd.verity_root_data=" ++ (goToUpper dataIdType ++ "=" ++ dataId) ++
            " systemd.verity_root_hash=" ++ (goToUpper hashIdType ++ "=" ++ hashId) ++
            " systemd.verity_root_options=panic-on-corruption")
        else if goStartsWith (goTrimSpace line) "set rootdevice=PARTUUID=" then
          "set rootdevice=/dev/mapper/root"
        else line)) := by
  have hd' : systemdFormatPartitionId dataIdType dataId =
      Except.ok (goToUpper dataIdType ++ "=" ++ dataId) := by
    simp [systemdFormatPartitionId, hd]
  have hh' : systemdFormatPartitionId hashIdType hashId =
      Except.ok (goToUpper hashIdType ++ "=" ++ hashId) := by
    simp [systemdFormatPartitionId, hh]
  unfold updateGrubConfig
  rw [hd', hh']
  show Except.ok (lines.map (updateGrubLine ("rd.systemd.verity=1 roothash=" ++ rootHash ++
    " systemd.verity_root_data=" ++ (goToUpper dataIdType ++ "=" ++ dataId) ++
    " systemd.verity_root_hash=" ++ (goToUpper hashIdType ++ "=" ++ hashId) ++
    " systemd.verity_root_options=panic-on-corruption"))) = _
  congr 1
  apply List.map_congr_left
  intro line _
  unfold updateGrubLine
  by_cases hB : goStartsWith (goTrimSpace line) "set rootdevice=PARTUUID=" = true
  · have hA : ¬ goStartsWith (goTrimSpace line) "linux " = true := fun hA =>
      linux_set_disjoint _ hA hB
    simp [hA, hB]
  · by_cases hA : goStartsWith (goTrimSpace line) "linux " = true
    · simp [hA, hB]
    · simp [hA, hB]

/-- C1 (witness): the theorem evaluated on a three-line grub configuration. -/
theorem updateGrubConfig_spec_witness :
    ValidIdType "partuuid" ∧ ValidIdType "uuid" ∧
    updateGrubConfig "partuuid" "DATA-ID" "uuid" "HASH-ID" "abc123"
        ["  linux /vmlinuz root=x", "set rootdevice=PARTUUID=ABCD", "menuentry x"] =
      Except.ok
        ["  linux /vmlinuz root=x rd.systemd.verity=1 roothash=abc123 systemd.verity_root_data=PARTUUID=DATA-ID systemd.verity_root_hash=UUID=HASH-ID systemd.verity_root_options=panic-on-corruption",
         "set rootdevice=/dev/mapper/root", "menuentry x"] := by
  refine ⟨by decide, by decide, ?_⟩
  rw [updateGrubConfig_spec "partuuid" "uuid" "DATA-ID" "HASH-ID" "abc123"
    ["  linux /vmlinuz root=x", "set rootdevice=PARTUUID=ABCD", "menuentry x"]
    (by decide) (by decide)]
  rfl

/-- Successful `Except` binds reduce. -/
theorem exceptOkBind {ε α β : Type} (a : α) (f : α → Except ε β) :
    (Except.ok a >>= f : Except ε β) = f a := rfl

/-- Failed `Except` binds short-circuit. -/
theorem exceptErrBind {ε α β : Type} (e : ε) (f : α → Except ε β) :
    (Except.error e >>= f : Except ε β) = Except.error e := rfl

/-- C3: with the three package lists merged successfully, `validatePackageLists`
accepts when at least one RPM source is supplied or the use-base-image-repos
flag is set; otherwise it rejects with an error explaining the trigger when
packages are to be installed or updated or the update-existing-packages flag is
set, rejects with the initramfs explanation when partitions were customized,
and accepts when no triggering condition holds. -/
theorem validatePackageLists_spec (env : Env) (baseConfigPath : String) (os : OSConf)
    (rpmsSources : List String) (useBaseImageRpmRepos partitionsCustomized : Bool)
    (allRemove allInstall allUpdate : List String)
    (hR : collectPackagesList env baseConfigPath os.packages.removeLists os.packages.remove =
      Except.ok allRemove)
    (hI : collectPackagesList env baseConfigPath os.packages.installLists os.packages.install =
      Except.ok allInstall)
    (hU : collectPackagesList env baseConfigPath os.packages.updateLists os.packages.update =
      Except.ok allUpdate) :
    validatePackageLists env baseConfigPath (some os) rpmsSources useBaseImageRpmRepos
        partitionsCustomized =
      if rpmsSources.length > 0 || useBaseImageRpmRepos then Except.ok ()
      else if allInstall.length > 0 || allUpdate.length > 0 ||
          os.packages.updateExistingPackages then
        Except.error
          (Failure.err "have packages to install or update but no RPM sources were specified")
      else if partitionsCustomized then
        Except.error (Failure.err
          "partitions were customized so the initramfs package needs to be reinstalled but no RPM sources were specified")
      else Except.ok () := by
  simp only [validatePackageLists]
  rw [hR, hI, hU]
  simp only [exceptOkBind]
  cases h : (decide (rpmsSources.length > 0) || useBaseImageRpmRepos) <;> simp [h]

/-- C3 (witness): one package to install, no RPM sources, base-repos flag
unset — rejected with the package-sources error. -/
theorem validatePackageLists_spec_witness :
    validatePackageLists envTrivial "cfg" (some osInstallOne) [] false false =
      Except.error
        (Failure.err "have packages to install or update but no RPM sources were specified") := by
  rw [validatePackageLists_spec envTrivial "cfg" osInstallOne [] false false [] ["pkg"] []
    rfl rfl rfl]
  rfl

/-- Stage-level fact about the conversion branches: for an `.iso` input and a
configuration with neither `Storage` nor `OS`, initialization succeeds for an
ISO output, the input conversion only expands the ISO and loads its artifacts
— it never builds a writable raw disk image from the embedded squashfs — and
the output conversion takes the recreate-original-artifacts branch, not the
fresh-live-ISO branch.  These branches are what the spec describes; the full
pipeline never reaches them on this scenario (see the C4 defect theorem
below). -/
theorem isoInput_noCustomization_spec (buildDir inputImageFile configPath : String)
    (config : Config) (useBaseImageRpmRepos : Bool) (rpmsSources : List String)
    (enableShrinkFilesystems : Bool) (outputSplitPartitionsFormat outputImageFile : String)
    (hiso : goExt inputImageFile = ".iso") (hs : config.storage = none)
    (ho : config.os = none) :
    ∃ cp, initCommonParameters buildDir inputImageFile configPath config useBaseImageRpmRepos
        rpmsSources enableShrinkFilesystems outputSplitPartitionsFormat ImageFormatIso
        outputImageFile = Except.ok cp ∧
      convertInputImageToWriteableFormat cp = [Action.expandIso, Action.loadIsoArtifacts] ∧
      Action.createWriteableImageFromSquashfs ∉ convertInputImageToWriteableFormat cp ∧
      convertWriteableFormatToOutputImage cp = [Action.recreateLiveOSIsoImage] := by
  refine ⟨_, rfl, ?_, ?_, ?_⟩
  · simp [convertInputImageToWriteableFormat, hiso, hs, ho]
  · simp [convertInputImageToWriteableFormat, hiso, hs, ho]
  · simp [convertWriteableFormatToOutputImage, ImageFormatVhd, ImageFormatVhdx,
      ImageFormatQCow2, ImageFormatRaw, ImageFormatIso, hs, ho]

/-- The stage-level fact evaluated on a concrete empty configuration and the
input path `input.iso`. -/
theorem isoInput_noCustomization_spec_witness :
    ∃ cp, initCommonParameters "build" "input.iso" "cfg" configEmpty false [] false ""
        ImageFormatIso "out.iso" = Except.ok cp ∧
      convertInputImageToWriteableFormat cp = [Action.expandIso, Action.loadIsoArtifacts] ∧
      Action.createWriteableImageFromSquashfs ∉ convertInputImageToWriteableFormat cp ∧
      convertWriteableFormatToOutputImage cp = [Action.recreateLiveOSIsoImage] :=
  isoInput_noCustomization_spec "build" "input.iso" "cfg" configEmpty false [] false ""
    "out.iso" rfl rfl rfl

/-- C4 (code defect): on the claim's scenario — ISO input, a configuration
with neither `Storage` nor `OS`, ISO output — the full pipeline never reaches
any conversion stage, although the no-customization repackaging branch exists
in `convertInputImageToWriteableFormat`/`convertWriteableFormatToOutputImage`
(see the two stage-level facts above): validation dereferences the nil `OS`
pointer inside `validatePackageLists` and panics, so the run produces no ISO
output at all — the stage trace is empty and the result is a panic, not a
repackaged ISO. -/
theorem isoInput_noCustomization_panics :
    validateConfig envTrivial "cfg" configEmpty [] false =
      Except.error (Failure.panic nilPointerPanicMsg) ∧
    customizeImage envTrivial "build" "cfg" configEmpty "input.iso" [] "out.iso" "iso" ""
      false false = ([], some (Failure.panic nilPointerPanicMsg)) :=
  ⟨rfl, rfl⟩

/-- C7: with `Storage` present and `OS` absent (and the schema/ISO checks
passing), `validateSystemConfig` dereferences the nil `OS` pointer inside
`validatePackageLists`, so validation produces a runtime panic rather than a
descriptive configuration error, and `CustomizeImage` therefore panics with no
reported error and no executed pipeline stage. -/
theorem storageWithoutOS_panics (env : Env) (buildDir baseConfigPath : String) (config : Config)
    (imageFile : String) (rpmsSources : List String)
    (outputImageFile outputImageFormat outputSplitPartitionsFormat : String)
    (useBaseImageRpmRepos enableShrinkFilesystems : Bool)
    (hschema : env.isValidSchema config = none)
    (hiso : validateIsoConfig env baseConfigPath config.iso = Except.ok ())
    (_hstorage : config.storage.isSome = true) (ho : config.os = none) :
    validateSystemConfig env baseConfigPath config.os rpmsSources useBaseImageRpmRepos
        (hasPartitionCustomizations config) = Except.error (Failure.panic nilPointerPanicMsg) ∧
    validateConfig env baseConfigPath config rpmsSources useBaseImageRpmRepos =
      Except.error (Failure.panic nilPointerPanicMsg) ∧
    customizeImage env buildDir baseConfigPath config imageFile rpmsSources outputImageFile
        outputImageFormat outputSplitPartitionsFormat useBaseImageRpmRepos
        enableShrinkFilesystems = ([], some (Failure.panic nilPointerPanicMsg)) := by
  have h1 : validateSystemConfig env baseConfigPath config.os rpmsSources useBaseImageRpmRepos
      (hasPartitionCustomizations config) = Except.error (Failure.panic nilPointerPanicMsg) := by
    rw [ho]
    rfl
  have h2 : validateConfig env baseConfigPath config rpmsSources useBaseImageRpmRepos =
      Except.error (Failure.panic nilPointerPanicMsg) := by
    unfold validateConfig
    rw [hschema, hiso]
    simp only [exceptOkBind]
    exact h1
  refine ⟨h1, h2, ?_⟩
  unfold customizeImage
  rw [h2]
  rfl

/-- C7 (witness): the theorem evaluated on the concrete storage-only
configuration under the trivial environment. -/
theorem storageWithoutOS_panics_witness :
    validateSystemConfig envTrivial "cfg" configStorageOnly.os [] false
        (hasPartitionCustomizations configStorageOnly) =
      Except.error (Failure.panic nilPointerPanicMsg) ∧
    validateConfig envTrivial "cfg" configStorageOnly [] false =
      Except.error (Failure.panic nilPointerPanicMsg) ∧
    customizeImage envTrivial "build" "cfg" configStorageOnly "input.vhdx" [] "out.vhdx"
        "vhdx" "" false false = ([], some (Failure.panic nilPointerPanicMsg)) :=
  storageWithoutOS_panics envTrivial "build" "cfg" configStorageOnly "input.vhdx" []
    "out.vhdx" "vhdx" "" false false rfl rfl rfl rfl

/-- Every action of the input-conversion stage is one of: expand ISO, load
artifacts, build writable image from squashfs, convert input to raw. -/
theorem convertInput_actions (cp : CommonParameters) (a : Action)
    (ha : a ∈ convertInputImageToWriteableFormat cp) :
    a = Action.expandIso ∨ a = Action.loadIsoArtifacts ∨
    a = Action.createWriteableImageFromSquashfs ∨ a = Action.qemuConvertToRaw := by
  unfold convertInputImageToWriteableFormat at ha
  split_ifs at ha <;> simp at ha <;> tauto

/-- Every action of the OS-customization stage is one of its six internal
stages; in particular none is an output-image conversion or ISO build. -/
theorem customizeOSContents_actions (cp : CommonParameters) (a : Action)
    (ha : a ∈ (customizeOSContents cp).1) :
    a = Action.customizePartitionsStage ∨ a = Action.customizeImageHelperStage ∨
    a = Action.shrinkFilesystemsStage ∨ a = Action.verityStage ∨
    a = Action.checkFileSystemsStage ∨ a = Action.extractPartitionsStage := by
  unfold customizeOSContents at ha
  rcases hos : cp.config.os with _ | o <;> rw [hos] at ha <;>
    split_ifs at ha <;> simp at ha <;> tauto

/-- When the `OS` section is present, the OS-customization stage never
panics. -/
theorem customizeOSContents_no_panic (cp : CommonParameters) (o : OSConf)
    (ho : cp.config.os = some o) : (customizeOSContents cp).2 = none := by
  unfold customizeOSContents
  split_ifs <;> simp [ho]

/-- Shape of a fully successful pipeline run: the traces of the three stages
concatenate and no failure is reported. -/
theorem customizeImage_ok_shape (env : Env) (buildDir baseConfigPath : String) (config : Config)
    (imageFile : String) (rpmsSources : List String)
    (outputImageFile outputImageFormat outputSplitPartitionsFormat : String)
    (useBaseImageRpmRepos enableShrinkFilesystems : Bool) (cp : CommonParameters)
    (t2 : List Action)
    (hvalid : validateConfig env baseConfigPath config rpmsSources useBaseImageRpmRepos =
      Except.ok ())
    (hinit : initCommonParameters buildDir imageFile baseConfigPath config useBaseImageRpmRepos
      rpmsSources enableShrinkFilesystems outputSplitPartitionsFormat outputImageFormat
      outputImageFile = Except.ok cp)
    (hcontents : customizeOSContents cp = (t2, none)) :
    customizeImage env buildDir baseConfigPath config imageFile rpmsSources outputImageFile
        outputImageFormat outputSplitPartitionsFormat useBaseImageRpmRepos
        enableShrinkFilesystems =
      (convertInputImageToWriteableFormat cp ++ t2 ++ convertWriteableFormatToOutputImage cp,
        none) := by
  unfold customizeImage
  simp only [hvalid, hinit, hcontents]

/-- C10: for the empty output format the pipeline completes without producing
any output image: `toQemuImageFormat` would reject the empty string, but
initialization skips that validation for it; the output-conversion switch
matches no case and has no default, so the run returns no failure and its
trace contains no output format conversion and no ISO build. -/
theorem emptyOutputFormat_spec (env : Env) (buildDir baseConfigPath : String) (config : Config)
    (imageFile : String) (rpmsSources : List String)
    (outputImageFile outputSplitPartitionsFormat : String)
    (useBaseImageRpmRepos enableShrinkFilesystems : Bool)
    (hvalid : validateConfig env baseConfigPath config rpmsSources useBaseImageRpmRepos =
      Except.ok ()) :
    (∃ e, toQemuImageFormat "" = Except.error e) ∧
    (∃ cp, initCommonParameters buildDir imageFile baseConfigPath config useBaseImageRpmRepos
        rpmsSources enableShrinkFilesystems outputSplitPartitionsFormat "" outputImageFile =
          Except.ok cp ∧
      convertWriteableFormatToOutputImage cp = []) ∧
    ∃ trace,
      customizeImage env buildDir baseConfigPath config imageFile rpmsSources outputImageFile ""
          outputSplitPartitionsFormat useBaseImageRpmRepos enableShrinkFilesystems =
        (trace, none) ∧
      (∀ fmt, Action.qemuConvertOutput fmt ∉ trace) ∧
      Action.createLiveOSIsoImage ∉ trace ∧ Action.recreateLiveOSIsoImage ∉ trace := by
  have hos : ∃ o, config.os = some o := by
    rcases h : config.os with _ | o
    · exfalso
      unfold validateConfig at hvalid
      cases hsch : env.isValidSchema config with
      | some m => rw [hsch] at hvalid; exact absurd hvalid (by simp)
      | none =>
        rw [hsch] at hvalid
        cases hisoR : validateIsoConfig env baseConfigPath config.iso with
        | error e =>
          rw [hisoR] at hvalid
          simp only [exceptErrBind] at hvalid
          exact absurd hvalid (by simp)
        | ok u =>
          rw [hisoR] at hvalid
          simp only [exceptOkBind] at hvalid
          rw [h] at hvalid
          simp [validateSystemConfig, validatePackageLists, exceptErrBind] at hvalid
    · exact ⟨o, rfl⟩
  obtain ⟨o, ho⟩ := hos
  obtain ⟨cp, hinit⟩ : ∃ cp, initCommonParameters buildDir imageFile baseConfigPath config
      useBaseImageRpmRepos rpmsSources enableShrinkFilesystems outputSplitPartitionsFormat ""
      outputImageFile = Except.ok cp := ⟨_, rfl⟩
  have hcpfmt : cp.outputImageFormat = "" := by
    have := hinit
    simp only [initCommonParameters] at this
    rw [if_neg (by simp)] at this
    cases this
    rfl
  have hcpcfg : cp.config = config := by
    have := hinit
    simp only [initCommonParameters] at this
    rw [if_neg (by simp)] at this
    cases this
    rfl
  have hout : convertWriteableFormatToOutputImage cp = [] := by
    unfold convertWriteableFormatToOutputImage
    rw [hcpfmt]
    simp [ImageFormatVhd, ImageFormatVhdx, ImageFormatQCow2, ImageFormatRaw, ImageFormatIso]
  have hnp : (customizeOSContents cp).2 = none :=
    customizeOSContents_no_panic cp o (by rw [hcpcfg, ho])
  have hcontents : customizeOSContents cp = ((customizeOSContents cp).1, none) := by
    rw [← hnp]
  refine ⟨⟨_, rfl⟩, ⟨cp, hinit, hout⟩, ?_⟩
  refine ⟨_, customizeImage_ok_shape env buildDir baseConfigPath config imageFile rpmsSources
    outputImageFile "" outputSplitPartitionsFormat useBaseImageRpmRepos enableShrinkFilesystems
    cp _ hvalid hinit hcontents, ?_, ?_, ?_⟩
  · intro fmt hmem
    rw [hout, List.append_nil] at hmem
    rcases List.mem_append.mp hmem with hm | hm
    · rcases convertInput_actions _ _ hm with h' | h' | h' | h' <;> simp at h'
    · rcases customizeOSContents_actions _ _ hm with h' | h' | h' | h' | h' | h' <;> simp at h'
  · intro hmem
    rw [hout, List.append_nil] at hmem
    rcases List.mem_append.mp hmem with hm | hm
    · rcases convertInput_actions _ _ hm with h' | h' | h' | h' <;> simp at h'
    · rcases customizeOSContents_actions _ _ hm with h' | h' | h' | h' | h' | h' <;> simp at h'
  · intro hmem
    rw [hout, List.append_nil] at hmem
    rcases List.mem_append.mp hmem with hm | hm
    · rcases convertInput_actions _ _ hm with h' | h' | h' | h' <;> simp at h'
    · rcases customizeOSContents_actions _ _ hm with h' | h' | h' | h' | h' | h' <;> simp at h'

/-- C10 (witness): the theorem evaluated on a concrete valid configuration
(an empty `OS` section) with the empty output format. -/
theorem emptyOutputFormat_spec_witness :
    (∃ e, toQemuImageFormat "" = Except.error e) ∧
    (∃ cp, initCommonParameters "build" "input.vhdx" "cfg" configOSOnly false [] false "" ""
        "out" = Except.ok cp ∧
      convertWriteableFormatToOutputImage cp = []) ∧
    ∃ trace,
      customizeImage envTrivial "build" "cfg" configOSOnly "input.vhdx" [] "out" "" "" false
          false = (trace, none) ∧
      (∀ fmt, Action.qemuConvertOutput fmt ∉ trace) ∧
      Action.createLiveOSIsoImage ∉ trace ∧ Action.recreateLiveOSIsoImage ∉ trace :=
  emptyOutputFormat_spec envTrivial "build" "cfg" configOSOnly "input.vhdx" [] "out" "" false
    false rfl

/-- A stripped literal is a prefix of the input. -/
theorem stripLiteral_sound (p : List Char) : ∀ l r, stripLiteral p l = some r → l = p ++ r := by
  induction p with
  | nil =>
    intro l r h
    cases h
    rfl
  | cons a ps ih =>
    intro l r h
    cases l with
    | nil => exact absurd h (by simp [stripLiteral])
    | cons c cs =>
      unfold stripLiteral at h
      by_cases hac : a = c
      · rw [if_pos hac] at h
        rw [List.cons_append, ← hac, ih cs r h]
      · rw [if_neg hac] at h
        exact absurd h (by simp)

/-- Stripping a literal off itself succeeds. -/
theorem stripLiteral_complete (p : List Char) : ∀ t, stripLiteral p (p ++ t) = some t := by
  induction p with
  | nil => intro t; rfl
  | cons a ps ih => intro t; simp [stripLiteral, ih]

/-- Dropping a satisfying run drops through it. -/
theorem dropWhile_all_append (p : Char → Bool) (ws t : List Char)
    (h : ∀ c ∈ ws, p c = true) : (ws ++ t).dropWhile p = t.dropWhile p := by
  induction ws with
  | nil => rfl
  | cons w wsr ih =>
    rw [List.cons_append, List.dropWhile_cons, if_pos (h w (by simp))]
    exact ih (fun c hc => h c (by simp [hc]))

/-- A hexadecimal character is not regex whitespace. -/
theorem hex_not_space (c : Char) (h : isHexChar c = true) : isRegexSpace c = false := by
  cases hsp : isRegexSpace c
  · rfl
  · exfalso
    unfold isRegexSpace at hsp
    simp only [Bool.or_eq_true, decide_eq_true_eq] at hsp
    rcases hsp with ((((h' | h') | h') | h') | h') <;> subst h' <;> exact absurd h (by decide)

/-- Soundness of the anchored matcher: a successful match decomposes the input
into the literal, a non-empty whitespace run, the non-empty hexadecimal
capture group, and a remainder. -/
theorem matchRootHashAt_sound (l h : List Char) (hm : matchRootHashAt l = some h) :
    ∃ ws rest, l = rootHashLit ++ (ws ++ (h ++ rest)) ∧
      ws ≠ [] ∧ (∀ c ∈ ws, isRegexSpace c = true) ∧
      h ≠ [] ∧ (∀ c ∈ h, isHexChar c = true) := by
  unfold matchRootHashAt at hm
  cases hstrip : stripLiteral rootHashLit l with
  | none => rw [hstrip] at hm; exact absurd hm (by simp)
  | some afterLit =>
    rw [hstrip] at hm
    simp only at hm
    by_cases hws : afterLit.takeWhile isRegexSpace = []
    · rw [if_pos hws] at hm
      exact absurd hm (by simp)
    · rw [if_neg hws] at hm
      by_cases hhex : (afterLit.dropWhile isRegexSpace).takeWhile isHexChar = []
      · rw [if_pos hhex] at hm
        exact absurd hm (by simp)
      · rw [if_neg hhex] at hm
        cases hm
        refine ⟨afterLit.takeWhile isRegexSpace,
          (afterLit.dropWhile isRegexSpace).dropWhile isHexChar, ?_, hws, ?_, hhex, ?_⟩
        · rw [stripLiteral_sound rootHashLit l afterLit hstrip]
          congr 1
          rw [List.takeWhile_append_dropWhile (p := isHexChar),
            List.takeWhile_append_dropWhile (p := isRegexSpace)]
        · exact fun c hc => List.mem_takeWhile_imp hc
        · exact fun c hc => List.mem_takeWhile_imp hc

/-- Completeness of the anchored matcher: any valid decomposition at the head
of the input makes the matcher succeed. -/
theorem matchRootHashAt_complete (ws hex rest : List Char) (hws : ws ≠ [])
    (hwsall : ∀ c ∈ ws, isRegexSpace c = true) (hhex : hex ≠ [])
    (hhexall : ∀ c ∈ hex, isHexChar c = true) :
    ∃ h, matchRootHashAt (rootHashLit ++ (ws ++ (hex ++ rest))) = some h := by
  unfold matchRootHashAt
  rw [stripLiteral_complete rootHashLit (ws ++ (hex ++ rest))]
  simp only
  cases ws with
  | nil => exact absurd rfl hws
  | cons w wsr =>
    have hw : isRegexSpace w = true := hwsall w (by simp)
    rw [if_neg (by
      rw [List.cons_append, List.takeWhile_cons, if_pos hw]
      simp)]
    cases hex with
    | nil => exact absurd rfl hhex
    | cons x xs =>
      have hx : isHexChar x = true := hhexall x (by simp)
      have hdrop : ((w :: wsr) ++ ((x :: xs) ++ rest)).dropWhile isRegexSpace =
          (x :: xs) ++ rest := by
        rw [dropWhile_all_append isRegexSpace (w :: wsr) ((x :: xs) ++ rest) hwsall,
          List.cons_append, List.dropWhile_cons, if_neg (by simp [hex_not_space x hx])]
      rw [hdrop]
      rw [if_neg (by
        rw [List.cons_append, List.takeWhile_cons, if_pos hx]
        simp)]
      exact ⟨_, rfl⟩

/-- Soundness of the leftmost scan: a found capture group really is the group
of a match of the root-hash regular expression somewhere in the input. -/
theorem findRootHashMatch_sound (s h : List Char) (hf : findRootHashMatch s = some h) :
    RootHashMatchIn s h := by
  induction s with
  | nil => exact absurd hf (by simp [findRootHashMatch])
  | cons c rest ih =>
    unfold findRootHashMatch at hf
    cases hm : matchRootHashAt (c :: rest) with
    | some h' =>
      rw [hm] at hf
      cases hf
      obtain ⟨ws, rst, heq, hws, hwsall, hhex, hhexall⟩ := matchRootHashAt_sound _ _ hm
      refine ⟨[], ws, rst, ?_, hws, hwsall, hhex, hhexall⟩
      rw [heq]
      simp [List.append_assoc]
    | none =>
      rw [hm] at hf
      obtain ⟨pre, ws, rst, heq, hws, hwsall, hhex, hhexall⟩ := ih hf
      refine ⟨c :: pre, ws, rst, ?_, hws, hwsall, hhex, hhexall⟩
      rw [heq]
      simp

/-- Completeness of the leftmost scan: whenever the regular expression matches
somewhere in the input, the scan finds some capture group. -/
theorem findRootHashMatch_complete (pre ws hex rest : List Char) (hws : ws ≠ [])
    (hwsall : ∀ c ∈ ws, isRegexSpace c = true) (hhex : hex ≠ [])
    (hhexall : ∀ c ∈ hex, isHexChar c = true) :
    ∃ h, findRootHashMatch (pre ++ rootHashLit ++ ws ++ hex ++ rest) = some h := by
  induction pre with
  | nil =>
    have hshape : ([] : List Char) ++ rootHashLit ++ ws ++ hex ++ rest =
        'R' :: ("oot hash:".data ++ (ws ++ (hex ++ rest))) := by
      simp [rootHashLit]
    rw [hshape]
    obtain ⟨h, hm⟩ := matchRootHashAt_complete ws hex rest hws hwsall hhex hhexall
    refine ⟨h, ?_⟩
    unfold findRootHashMatch
    rw [show ('R' :: ("oot hash:".data ++ (ws ++ (hex ++ rest)))) =
      rootHashLit ++ (ws ++ (hex ++ rest)) from by simp [rootHashLit], hm]
  | cons c pre' ih =>
    rw [show (c :: pre') ++ rootHashLit ++ ws ++ hex ++ rest =
      c :: (pre' ++ rootHashLit ++ ws ++ hex ++ rest) from by simp]
    unfold findRootHashMatch
    cases hm : matchRootHashAt (c :: (pre' ++ rootHashLit ++ ws ++ hex ++ rest)) with
    | some h => exact ⟨h, rfl⟩
    | none =>
      obtain ⟨h, hfind⟩ := ih
      exact ⟨h, hfind⟩

/-- C2: the root-hash extraction of verity strategy B returns, on success, the
first capture group of `Root hash:\s+([0-9a-fA-F]+)` applied to the
formatting tool's output (a non-empty hexadecimal run preceded by the literal
and non-empty whitespace), and for every output containing no such match it
returns the fatal parse error instead of proceeding. -/
theorem extractRootHash_spec (verityOutput : String) :
    (¬ HasRootHashMatch verityOutput.data →
      extractRootHash verityOutput = Except.error rootHashParseErrorMsg) ∧
    (∀ h, extractRootHash verityOutput = Except.ok h →
      RootHashMatchIn verityOutput.data h.data) := by
  constructor
  · intro hno
    unfold extractRootHash
    cases hf : findRootHashMatch verityOutput.data with
    | none => rfl
    | some h => exact absurd ⟨h, findRootHashMatch_sound _ _ hf⟩ hno
  · intro h hok
    unfold extractRootHash at hok
    cases hf : findRootHashMatch verityOutput.data with
    | none =>
      rw [hf] at hok
      exact absurd hok (by simp)
    | some h' =>
      rw [hf] at hok
      cases hok
      exact findRootHashMatch_sound _ _ hf

/-- C2 (witness): an output containing `Root hash:` followed by tabs and a
hexadecimal value yields that value as a genuine match, and an output with no
such line yields the parse-failure error. -/
theorem extractRootHash_spec_witness :
    RootHashMatchIn "Root hash:\t\t9f8e7d".data "9f8e7d".data ∧
    extractRootHash "veritysetup produced nothing useful" =
      Except.error rootHashParseErrorMsg := by
  constructor
  · exact (extractRootHash_spec "Root hash:\t\t9f8e7d").2 "9f8e7d" rfl
  · refine (extractRootHash_spec "veritysetup produced nothing useful").1 ?_
    rintro ⟨hex, pre, ws, rest, heq, hws, hwsall, hhex, hhexall⟩
    obtain ⟨h, hfind⟩ := findRootHashMatch_complete pre ws hex rest hws hwsall hhex hhexall
    rw [← heq] at hfind
    rw [show findRootHashMatch "veritysetup produced nothing useful".data = none from rfl]
      at hfind
    exact absurd hfind (by simp)

end ImageCustomizer
